import Mathlib

/-!
Verification of the ucp-ce control-plane core: ownership markers, quota
enforcement, session/status gating, first-login bootstrap, claim
reconciliation, and scoped listings.  Every definition below is a shallow
embedding of the corresponding Python function in `backend/app`.
-/

namespace UCP

/-- `OWNER_TAG_PREFIX` from `app/dependencies.py` (and the routers). -/
def OWNER_TAG : String := "ucp-owner:"

/-- The marker for an account: fixed prefix plus the decimal account id
(`f"{OWNER_TAG_PREFIX}{user_id}"` in the source). -/
def marker_for (uid : Nat) : String := OWNER_TAG ++ toString uid

/-- Character-list prefix test. -/
def charsPref : List Char → List Char → Bool
  | [], _ => true
  | _ :: _, [] => false
  | a :: as, b :: bs => a == b && charsPref as bs

/-- Character-list infix test. -/
def charsInf (needle hay : List Char) : Bool :=
  match hay with
  | [] => needle.isEmpty
  | _ :: t => charsPref needle hay || charsInf needle t

/-- Python's substring test `needle in hay` on strings. -/
def strContains (hay needle : String) : Bool :=
  charsInf needle.toList hay.toList

/-- A Proxmox resource (VM or LXC container) as the routers consume it:
a dict with tag string, template flag and consumption figures.  A missing
key reads as `0` / `""` in the source, so fields are total here. -/
structure Resource where
  vmid : Nat
  node : String
  tags : String
  template : Bool
  cpus : Nat
  maxcpu : Nat
  maxmem : Nat
  maxdisk : Nat
deriving Repr, DecidableEq

/-- `_is_owner` from `app/dependencies.py` / `routers/instances.py` /
`routers/lxc.py`: raw substring containment of the marker in the tag
string. -/
def _is_owner (r : Resource) (uid : Nat) : Bool :=
  strContains r.tags (marker_for uid)

/-- Split a character list on a delimiter character. -/
def splitChars (delim : Char) : List Char → List (List Char)
  | [] => [[]]
  | c :: rest =>
    match splitChars delim rest with
    | [] => if c == delim then [[], []] else [[c]]
    | h :: t => if c == delim then [] :: h :: t else (c :: h) :: t

/-- Spec-side ownership predicate, modelled from the spec's words in
section 4.2: split the label set on the delimiter (Proxmox separates tags
with a semicolon) and test exact membership of the marker token.  Kept
separate from `_is_owner` so the two can be compared. -/
def owns_spec (tags : String) (uid : Nat) : Bool :=
  (splitChars ';' tags.toList).contains (marker_for uid).toList

/-- `v.get("cpus", 0) or v.get("maxcpu", 0)` — Python `or` falls through
on a zero first operand. -/
def effVcpus (r : Resource) : Nat :=
  if r.cpus ≠ 0 then r.cpus else r.maxcpu

def usedVcpus (rs : List Resource) : Nat := (rs.map effVcpus).sum

def usedRamBytes (rs : List Resource) : Nat := (rs.map Resource.maxmem).sum

def usedDiskBytes (rs : List Resource) : Nat := (rs.map Resource.maxdisk).sum

/-- A quota row (`app/models/user.py`, class `Quota`). -/
structure Quota where
  user_id : Nat
  max_vcpus : Nat
  max_ram_gb : Nat
  max_disk_gb : Nat
  allowed_networks : String
deriving Repr, DecidableEq

/-- The quota dimension a rejection cites (which `raise` fired). -/
inductive Dim where
  | vcpu
  | ram
  | disk
deriving Repr, DecidableEq

/-- The vCPU rejection detail, the only one that interpolates numbers:
`f"vCPU quota exceeded: {used} + {req} > {limit}"`. -/
def vcpuMsg (used req limit : Nat) : String :=
  "vCPU quota exceeded: " ++ toString used ++ " + " ++ toString req ++
    " > " ++ toString limit

/-- `my_vms` filter in `create_instance` (`routers/instances.py` line 113):
owned and not a template. -/
def myVms (uid : Nat) (allVms : List Resource) : List Resource :=
  allVms.filter (fun v => _is_owner v uid && !v.template)

/-- The quota comparison block of `create_instance`
(`routers/instances.py` lines 112-133).  Sums are taken over the caller's
owned non-template VMs only; divisions are exact rational arithmetic
mirroring Python's true division (`/ (1024**2)`, `/ (1024**3)`).
Returns the detail of the first `HTTPException` raised, or `none`. -/
def vm_quota_check (uid : Nat) (q : Quota) (allVms : List Resource)
    (reqVcpus reqMemMb reqDiskGb : Nat) : Option (Dim × String) :=
  let my := myVms uid allVms
  let used_vcpus := usedVcpus my
  let used_ram_mb := usedRamBytes my
  let used_disk_bytes := usedDiskBytes my
  if used_vcpus + reqVcpus > q.max_vcpus then
    some (Dim.vcpu, vcpuMsg used_vcpus reqVcpus q.max_vcpus)
  else if (used_ram_mb : ℚ) / (1024 ^ 2) + (reqMemMb : ℚ) >
      (q.max_ram_gb : ℚ) * 1024 then
    some (Dim.ram, "RAM quota exceeded")
  else if (used_disk_bytes : ℚ) / (1024 ^ 3) + (reqDiskGb : ℚ) >
      (q.max_disk_gb : ℚ) then
    some (Dim.disk, "Disk quota exceeded")
  else none

/-- `my_instances` filter in `create_container` (`routers/lxc.py` lines
103-106): both kinds concatenated, owned, not a template. -/
def my_instances (uid : Nat) (vms cts : List Resource) : List Resource :=
  (vms ++ cts).filter (fun v => _is_owner v uid && !v.template)

/-- The quota comparison block of `create_container` (`routers/lxc.py`
lines 101-117): sums over owned non-template resources of both kinds. -/
def ct_quota_check (uid : Nat) (q : Quota) (vms cts : List Resource)
    (reqCores reqMemMb reqDiskGb : Nat) : Option (Dim × String) :=
  let my := my_instances uid vms cts
  let used_vcpus := usedVcpus my
  let used_ram_bytes := usedRamBytes my
  let used_disk_bytes := usedDiskBytes my
  if used_vcpus + reqCores > q.max_vcpus then
    some (Dim.vcpu, vcpuMsg used_vcpus reqCores q.max_vcpus)
  else if (used_ram_bytes : ℚ) / (1024 ^ 3) + (reqMemMb : ℚ) / 1024 >
      (q.max_ram_gb : ℚ) then
    some (Dim.ram, "RAM quota exceeded")
  else if (used_disk_bytes : ℚ) / (1024 ^ 3) + (reqDiskGb : ℚ) >
      (q.max_disk_gb : ℚ) then
    some (Dim.disk, "Disk quota exceeded")
  else none

/-- The whole quota gate of `create_instance` (`routers/instances.py`
lines 110-137): runs only when a quota row exists and the role is not
admin; a failed inventory fetch (`except Exception: pass`) admits. -/
def create_instance_quota (role : String) (uid : Nat) (quota : Option Quota)
    (fetchVms : Except Unit (List Resource))
    (reqVcpus reqMemMb reqDiskGb : Nat) : Option (Dim × String) :=
  match quota with
  | none => none
  | some q =>
    if role = "admin" then none
    else
      match fetchVms with
      | Except.error _ => none
      | Except.ok vms => vm_quota_check uid q vms reqVcpus reqMemMb reqDiskGb

/-- The whole quota gate of `create_container` (`routers/lxc.py` lines
99-121): fetches both kinds inside the same `try`; if either fetch fails
the block admits. -/
def create_container_quota (role : String) (uid : Nat) (quota : Option Quota)
    (fetchVms fetchCts : Except Unit (List Resource))
    (reqCores reqMemMb reqDiskGb : Nat) : Option (Dim × String) :=
  match quota with
  | none => none
  | some q =>
    if role = "admin" then none
    else
      match fetchVms, fetchCts with
      | Except.ok vms, Except.ok cts =>
          ct_quota_check uid q vms cts reqCores reqMemMb reqDiskGb
      | _, _ => none

/-- `list_instances` (`routers/instances.py` lines 59-75): templates
filtered out first, then admins with scope other than "mine" see all,
everyone else only what `_is_owner` attributes to them. -/
def list_instances (uid : Nat) (role : String) (scope : Option String)
    (vms : List Resource) : List Resource :=
  let nonTemplates := vms.filter (fun v => !v.template)
  if role = "admin" ∧ scope ≠ some "mine" then nonTemplates
  else nonTemplates.filter (fun v => _is_owner v uid)

/-- `list_containers` (`routers/lxc.py` lines 51-65): same scoping but no
template filter anywhere. -/
def list_containers (uid : Nat) (role : String) (scope : Option String)
    (cts : List Resource) : List Resource :=
  if role = "admin" ∧ scope ≠ some "mine" then cts
  else cts.filter (fun c => _is_owner c uid)

/-- A local account row (`app/models/user.py`, class `User`, plus the
`status` column added by migration `005_user_status.py`). -/
structure Account where
  id : Nat
  google_id : String
  email : String
  name : String
  picture : String
  role : String
  status : String
deriving Repr, DecidableEq

/-- Outcome of a FastAPI auth dependency: the resolved user, a 401, or a
403 with its detail string. -/
inductive AuthResult where
  | ok (u : Account)
  | unauthenticated (detail : String)
  | forbidden (detail : String)
deriving Repr, DecidableEq

/-- `get_current_user` (`services/auth.py` lines 177-216) after the JWT
has been decoded and the user row looked up: rejected and pending users
are blocked with the source's 403 detail strings. -/
def get_current_user (found : Option Account) : AuthResult :=
  match found with
  | none => AuthResult.unauthenticated "User not found"
  | some u =>
    if u.status = "rejected" then
      AuthResult.forbidden
        "Your account has been rejected. Contact an administrator."
    else if u.status = "pending" then
      AuthResult.forbidden "pending_approval"
    else AuthResult.ok u

/-- `get_current_user_any_status` (`services/auth.py` lines 219-242):
admits the user whatever the status.  Defined in the source "for /auth/me
status check" but referenced by no route. -/
def get_current_user_any_status (found : Option Account) : AuthResult :=
  match found with
  | none => AuthResult.unauthenticated "User not found"
  | some u => AuthResult.ok u

/-- Session resolution performed by `GET /auth/me` (`routers/auth.py`
line 45): the route's dependency is `get_current_user`, not
`get_current_user_any_status`. -/
def get_me_resolve (found : Option Account) : AuthResult :=
  get_current_user found

/-- `require_admin` (`services/auth.py` lines 245-252): composed on top
of `get_current_user`. -/
def require_admin (found : Option Account) : AuthResult :=
  match get_current_user found with
  | AuthResult.ok u =>
    if u.role ≠ "admin" then AuthResult.forbidden "Admin access required"
    else AuthResult.ok u
  | r => r

/-- The relational store slice the core mutates: user rows and quota
rows. -/
structure Db where
  users : List Account
  quotas : List Quota
deriving Repr, DecidableEq

/-- The fields of a verified Google token payload that `upsert_user`
reads. -/
structure GooglePayload where
  sub : String
  email : String
  name : String
  picture : String
deriving Repr, DecidableEq

/-- The default quota row created with every new account
(`services/auth.py` lines 157-163). -/
def defaultQuota (uid : Nat) : Quota :=
  { user_id := uid, max_vcpus := 8, max_ram_gb := 16, max_disk_gb := 200,
    allowed_networks := "" }

/-- `upsert_user` (`services/auth.py` lines 116-174) as a state
transition.  `nextId` stands for the autoincrement id the insert would
receive.  Returns the new store, the resulting account, and whether
`_claim_existing_resources` was triggered (the `is_first` branch). -/
def upsert_user (db : Db) (nextId : Nat) (p : GooglePayload) :
    Db × Account × Bool :=
  match db.users.find? (fun u => u.google_id == p.sub) with
  | some u =>
    let u' := { u with name := p.name, picture := p.picture }
    ({ db with
        users := db.users.map (fun v => if v.google_id == p.sub then u' else v) },
      u', false)
  | none =>
    let is_first := db.users.length == 0
    let role := if is_first then "admin" else "user"
    let user_status := if is_first then "approved" else "pending"
    let u : Account :=
      { id := nextId, google_id := p.sub, email := p.email, name := p.name,
        picture := p.picture, role := role, status := user_status }
    ({ users := db.users ++ [u], quotas := db.quotas ++ [defaultQuota nextId] },
      u, is_first)

/-- `update_user_status` (`routers/admin.py` lines 82-100): behind
`require_admin`, validates the target value against the literal set
`("approved", "rejected", "pending")`, then writes it. -/
def update_user_status (db : Db) (actor : Option Account) (target_id : Nat)
    (new_status : String) : Except String Db :=
  match require_admin actor with
  | AuthResult.unauthenticated d => Except.error d
  | AuthResult.forbidden d => Except.error d
  | AuthResult.ok _ =>
    if ¬ (new_status = "approved" ∨ new_status = "rejected" ∨
        new_status = "pending") then
      Except.error "Status must be 'approved', 'rejected', or 'pending'"
    else
      match db.users.find? (fun u => u.id == target_id) with
      | none => Except.error "User not found"
      | some _ =>
        Except.ok { db with
          users := db.users.map (fun u =>
            if u.id == target_id then { u with status := new_status } else u) }

/-- `new_tags = f"{existing_tags};{tag}" if existing_tags else tag` in
`_claim_existing_resources`. -/
def claim_tag_update (tag tags : String) : String :=
  if tags = "" then tag else tags ++ ";" ++ tag

/-- One VM's outcome in the first loop of `_claim_existing_resources`
(`services/auth.py` lines 84-96): templates are skipped, tag strings
already containing the owner prefix are skipped, otherwise the marker is
appended — unless the per-resource write fails, which only logs.
`writeOk` models the external label write succeeding for that resource. -/
def claim_vm (uid : Nat) (writeOk : Resource → Bool) (vm : Resource) :
    Resource :=
  if vm.template then vm
  else if strContains vm.tags OWNER_TAG then vm
  else if writeOk vm then
    { vm with tags := claim_tag_update (marker_for uid) vm.tags }
  else vm

/-- One container's outcome in the second loop of
`_claim_existing_resources` (`services/auth.py` lines 101-111): same as
the VM loop but with no template check. -/
def claim_ct (uid : Nat) (writeOk : Resource → Bool) (ct : Resource) :
    Resource :=
  if strContains ct.tags OWNER_TAG then ct
  else if writeOk ct then
    { ct with tags := claim_tag_update (marker_for uid) ct.tags }
  else ct

/-- `_claim_existing_resources` (`services/auth.py` lines 75-113) on a
fixed inventory: each resource is visited in turn and its outcome depends
only on itself, because a failed write is caught per resource. -/
def _claim_existing_resources (uid : Nat) (writeOk : Resource → Bool)
    (vms cts : List Resource) : List Resource × List Resource :=
  (vms.map (claim_vm uid writeOk), cts.map (claim_ct uid writeOk))

/-- What the (amended) claim says a resource's tag string is after the
bootstrap run, stated from the claim's words: unchanged when the resource
is a VM template, when the tag string already contains the owner prefix,
or when its write fails; otherwise the marker is appended. -/
def claimedTags (uid : Nat) (writeOk : Resource → Bool) (isVm : Bool)
    (r : Resource) : String :=
  if (isVm && r.template) || strContains r.tags OWNER_TAG || !(writeOk r) then
    r.tags
  else claim_tag_update (marker_for uid) r.tags

/-- The consumption-related fields of a resource the bootstrap must not
touch. -/
def resourceShape (r : Resource) : Nat × String × Bool × Nat × Nat × Nat × Nat :=
  (r.vmid, r.node, r.template, r.cpus, r.maxcpu, r.maxmem, r.maxdisk)

/-- `vm_quota_check` with each rational comparison multiplied through by
its positive divisor, giving comparisons of naturals; proven equal to
`vm_quota_check` below so closed instances can be evaluated. -/
def vm_quota_checkN (uid : Nat) (q : Quota) (allVms : List Resource)
    (reqVcpus reqMemMb reqDiskGb : Nat) : Option (Dim × String) :=
  if usedVcpus (myVms uid allVms) + reqVcpus > q.max_vcpus then
    some (Dim.vcpu,
      vcpuMsg (usedVcpus (myVms uid allVms)) reqVcpus q.max_vcpus)
  else if usedRamBytes (myVms uid allVms) + reqMemMb * 1024 ^ 2 >
      q.max_ram_gb * 1024 ^ 3 then
    some (Dim.ram, "RAM quota exceeded")
  else if usedDiskBytes (myVms uid allVms) + reqDiskGb * 1024 ^ 3 >
      q.max_disk_gb * 1024 ^ 3 then
    some (Dim.disk, "Disk quota exceeded")
  else none

/-- `ct_quota_check` in the same integer form. -/
def ct_quota_checkN (uid : Nat) (q : Quota) (vms cts : List Resource)
    (reqCores reqMemMb reqDiskGb : Nat) : Option (Dim × String) :=
  if usedVcpus (my_instances uid vms cts) + reqCores > q.max_vcpus then
    some (Dim.vcpu,
      vcpuMsg (usedVcpus (my_instances uid vms cts)) reqCores q.max_vcpus)
  else if usedRamBytes (my_instances uid vms cts) + reqMemMb * 1024 ^ 2 >
      q.max_ram_gb * 1024 ^ 3 then
    some (Dim.ram, "RAM quota exceeded")
  else if usedDiskBytes (my_instances uid vms cts) + reqDiskGb * 1024 ^ 3 >
      q.max_disk_gb * 1024 ^ 3 then
    some (Dim.disk, "Disk quota exceeded")
  else none

/-- `create_instance_quota` routed through the integer form of the
check. -/
def create_instance_quotaN (role : String) (uid : Nat) (quota : Option Quota)
    (fetchVms : Except Unit (List Resource))
    (reqVcpus reqMemMb reqDiskGb : Nat) : Option (Dim × String) :=
  match quota with
  | none => none
  | some q =>
    if role = "admin" then none
    else
      match fetchVms with
      | Except.error _ => none
      | Except.ok vms => vm_quota_checkN uid q vms reqVcpus reqMemMb reqDiskGb

/-- `create_container_quota` routed through the integer form of the
check. -/
def create_container_quotaN (role : String) (uid : Nat) (quota : Option Quota)
    (fetchVms fetchCts : Except Unit (List Resource))
    (reqCores reqMemMb reqDiskGb : Nat) : Option (Dim × String) :=
  match quota with
  | none => none
  | some q =>
    if role = "admin" then none
    else
      match fetchVms, fetchCts with
      | Except.ok vms, Except.ok cts =>
          ct_quota_checkN uid q vms cts reqCores reqMemMb reqDiskGb
      | _, _ => none

section Inputs

/-! Concrete inputs used by the closed theorems below. -/

/-- A resource whose only tag is account 10's marker. -/
def res10 : Resource :=
  { vmid := 110, node := "pve", tags := "ucp-owner:10", template := false,
    cpus := 1, maxcpu := 1, maxmem := 0, maxdisk := 0 }

/-- A container owned by account 1 consuming 4 vcpus. -/
def ctOwned : Resource :=
  { vmid := 200, node := "pve", tags := "ucp-owner:1", template := false,
    cpus := 4, maxcpu := 4, maxmem := 2 * 1024 ^ 3, maxdisk := 20 * 1024 ^ 3 }

/-- The spec's quota example: a VM fleet of account 1 using 6 vcpus, 8 GB
of RAM and 50 GB of disk. -/
def exVm : Resource :=
  { vmid := 101, node := "pve", tags := "ucp-owner:1", template := false,
    cpus := 6, maxcpu := 6, maxmem := 8 * 1024 ^ 3, maxdisk := 50 * 1024 ^ 3 }

/-- A VM of account 1 whose RAM (5 GB) alone exceeds the 4 GB limit of
`ramQuota`. -/
def ramVm : Resource :=
  { vmid := 102, node := "pve", tags := "ucp-owner:1", template := false,
    cpus := 1, maxcpu := 1, maxmem := 5 * 1024 ^ 3, maxdisk := 0 }

/-- A quota with a 4 GB RAM ceiling and roomy vcpu/disk ceilings. -/
def ramQuota : Quota :=
  { user_id := 1, max_vcpus := 8, max_ram_gb := 4, max_disk_gb := 200,
    allowed_networks := "" }

/-- An unowned VM template: empty tag string, template flag set. -/
def tmplVm : Resource :=
  { vmid := 900, node := "pve", tags := "", template := true,
    cpus := 2, maxcpu := 2, maxmem := 1024 ^ 3, maxdisk := 10 * 1024 ^ 3 }

/-- A container flagged as template. -/
def tmplCt : Resource :=
  { vmid := 901, node := "pve", tags := "", template := true,
    cpus := 1, maxcpu := 1, maxmem := 512 * 1024 ^ 2, maxdisk := 8 * 1024 ^ 3 }

/-- A pending account. -/
def pendingAcct : Account :=
  { id := 2, google_id := "g2", email := "p@x", name := "P", picture := "",
    role := "user", status := "pending" }

/-- A rejected account. -/
def rejectedAcct : Account :=
  { id := 3, google_id := "g3", email := "r@x", name := "R", picture := "",
    role := "user", status := "rejected" }

/-- An approved admin account. -/
def adminAcct : Account :=
  { id := 1, google_id := "g1", email := "a@x", name := "A", picture := "",
    role := "admin", status := "approved" }

/-- An approved ordinary user, the target of status updates below. -/
def targetAcct : Account :=
  { id := 2, google_id := "g2", email := "u@x", name := "U", picture := "",
    role := "user", status := "approved" }

/-- A store holding the admin and one approved user. -/
def twoUserDb : Db :=
  { users := [adminAcct, targetAcct],
    quotas := [defaultQuota 1, defaultQuota 2] }

/-- A fresh Google payload for a first login. -/
def payloadA : GooglePayload :=
  { sub := "gNew", email := "new@x", name := "New", picture := "pic" }

/-- The mixed bootstrap inventory of the spec's example: two resources
already owned (one VM, one container), three unowned. -/
def mixVmOwned : Resource :=
  { vmid := 301, node := "pve", tags := "ucp-owner:7", template := false,
    cpus := 1, maxcpu := 1, maxmem := 0, maxdisk := 0 }

def mixVmUnowned : Resource :=
  { vmid := 302, node := "pve", tags := "web;prod", template := false,
    cpus := 1, maxcpu := 1, maxmem := 0, maxdisk := 0 }

def mixVmUnowned2 : Resource :=
  { vmid := 303, node := "pve", tags := "", template := false,
    cpus := 1, maxcpu := 1, maxmem := 0, maxdisk := 0 }

def mixCtOwned : Resource :=
  { vmid := 304, node := "pve", tags := "db;ucp-owner:7", template := false,
    cpus := 1, maxcpu := 1, maxmem := 0, maxdisk := 0 }

def mixCtUnowned : Resource :=
  { vmid := 305, node := "pve", tags := "cache", template := false,
    cpus := 1, maxcpu := 1, maxmem := 0, maxdisk := 0 }

end Inputs

/-! ### Helper lemmas -/

/-- Clearing the positive divisor out of a rational comparison. -/
theorem qdiv_add_gt (a b c k : ℚ) (hk : 0 < k) :
    a / k + b > c ↔ a + b * k > c * k := by
  have h : a / k + b = (a + b * k) / k := by field_simp
  rw [gt_iff_lt, gt_iff_lt, h, lt_div_iff₀ hk]

/-- The `create_instance` RAM comparison in integer form. -/
theorem ram_vm_cond (ur m gb : ℕ) :
    ((ur : ℚ) / (1024 ^ 2) + (m : ℚ) > (gb : ℚ) * 1024) ↔
      ur + m * 1024 ^ 2 > gb * 1024 ^ 3 := by
  rw [qdiv_add_gt _ _ _ _ (by norm_num : (0 : ℚ) < 1024 ^ 2)]
  rw [gt_iff_lt, gt_iff_lt,
    show ((gb : ℚ) * 1024 * 1024 ^ 2) = ((gb * 1024 ^ 3 : ℕ) : ℚ) by
      push_cast; ring,
    show ((ur : ℚ) + (m : ℚ) * 1024 ^ 2) = ((ur + m * 1024 ^ 2 : ℕ) : ℚ) by
      push_cast; ring]
  exact Nat.cast_lt

/-- The disk comparison (identical in both creation paths) in integer
form. -/
theorem disk_cond (ud d gb : ℕ) :
    ((ud : ℚ) / (1024 ^ 3) + (d : ℚ) > (gb : ℚ)) ↔
      ud + d * 1024 ^ 3 > gb * 1024 ^ 3 := by
  rw [qdiv_add_gt _ _ _ _ (by norm_num : (0 : ℚ) < 1024 ^ 3)]
  rw [gt_iff_lt, gt_iff_lt,
    show ((gb : ℚ) * 1024 ^ 3) = ((gb * 1024 ^ 3 : ℕ) : ℚ) by
      push_cast; ring,
    show ((ud : ℚ) + (d : ℚ) * 1024 ^ 3) = ((ud + d * 1024 ^ 3 : ℕ) : ℚ) by
      push_cast; ring]
  exact Nat.cast_lt

/-- The `create_container` RAM comparison in integer form. -/
theorem ram_ct_cond (ur m gb : ℕ) :
    ((ur : ℚ) / (1024 ^ 3) + (m : ℚ) / 1024 > (gb : ℚ)) ↔
      ur + m * 1024 ^ 2 > gb * 1024 ^ 3 := by
  rw [qdiv_add_gt _ _ _ _ (by norm_num : (0 : ℚ) < 1024 ^ 3)]
  rw [gt_iff_lt, gt_iff_lt,
    show ((gb : ℚ) * 1024 ^ 3) = ((gb * 1024 ^ 3 : ℕ) : ℚ) by
      push_cast; ring,
    show ((ur : ℚ) + (m : ℚ) / 1024 * 1024 ^ 3) =
        ((ur + m * 1024 ^ 2 : ℕ) : ℚ) by
      push_cast; field_simp; ring]
  exact Nat.cast_lt

/-- The rational and integer forms of the VM check agree. -/
theorem vm_quota_check_eqN (uid : Nat) (q : Quota) (allVms : List Resource)
    (v m d : Nat) :
    vm_quota_check uid q allVms v m d = vm_quota_checkN uid q allVms v m d := by
  unfold vm_quota_check vm_quota_checkN
  simp only [ram_vm_cond, disk_cond]

/-- The rational and integer forms of the container check agree. -/
theorem ct_quota_check_eqN (uid : Nat) (q : Quota) (vms cts : List Resource)
    (c m d : Nat) :
    ct_quota_check uid q vms cts c m d = ct_quota_checkN uid q vms cts c m d := by
  unfold ct_quota_check ct_quota_checkN
  simp only [ram_ct_cond, disk_cond]

/-- The rational and integer forms of the VM creation gate agree. -/
theorem create_instance_quota_eqN (role : String) (uid : Nat)
    (quota : Option Quota) (fetch : Except Unit (List Resource))
    (v m d : Nat) :
    create_instance_quota role uid quota fetch v m d =
      create_instance_quotaN role uid quota fetch v m d := by
  unfold create_instance_quota create_instance_quotaN
  cases quota with
  | none => rfl
  | some q =>
    cases fetch with
    | error e => rfl
    | ok vms => simp only [vm_quota_check_eqN]

/-- The rational and integer forms of the container creation gate
agree. -/
theorem create_container_quota_eqN (role : String) (uid : Nat)
    (quota : Option Quota) (fv fc : Except Unit (List Resource))
    (c m d : Nat) :
    create_container_quota role uid quota fv fc c m d =
      create_container_quotaN role uid quota fv fc c m d := by
  unfold create_container_quota create_container_quotaN
  cases quota with
  | none => rfl
  | some q =>
    cases fv with
    | error e => rfl
    | ok vms =>
      cases fc with
      | error e => rfl
      | ok cts => simp only [ct_quota_check_eqN]

/-! ### Claim theorems -/

/-- C1: ownership is a raw substring test in the code, so account 1 is
treated as an owner of a resource whose only label is account 10's
marker, even though account 1's marker is not a discrete element of that
label set after splitting on the delimiter — the claim's iff fails on
this input. -/
theorem c1_owner_substring_bug :
    _is_owner res10 1 = true ∧
      owns_spec res10.tags 1 = false ∧
      owns_spec res10.tags 10 = true := by
  decide

/-- C3: the "who am I" read (`GET /auth/me`) resolves its session through
`get_current_user`, which blocks pending and rejected accounts, so the
self-status read does not succeed regardless of status; the any-status
dependency written for it is referenced by no route. -/
theorem c3_me_blocks_pending_and_rejected :
    get_me_resolve (some pendingAcct) =
        AuthResult.forbidden "pending_approval" ∧
      get_me_resolve (some rejectedAcct) =
        AuthResult.forbidden
          "Your account has been rejected. Contact an administrator." ∧
      get_current_user_any_status (some pendingAcct) =
        AuthResult.ok pendingAcct := by
  decide

/-- C5: the quota engine fails open — when the inventory fetch errors,
both creation gates return no violation, whatever the role, quota row or
requested size. -/
theorem c5_fail_open (role : String) (uid : Nat) (quota : Option Quota)
    (f : Except Unit (List Resource)) (v c m d : Nat) :
    create_instance_quota role uid quota (Except.error ()) v m d = none ∧
      create_container_quota role uid quota (Except.error ()) f c m d = none ∧
      create_container_quota role uid quota f (Except.error ()) c m d = none := by
  unfold create_instance_quota create_container_quota
  cases quota with
  | none => exact ⟨rfl, rfl, by cases f <;> rfl⟩
  | some q =>
    by_cases hr : role = "admin"
    · simp [hr]
    · simp only [if_neg hr]
      refine ⟨?_, ?_, ?_⟩ <;> cases f <;> first | rfl | trivial

/-- C9 as stated is false for containers: a template container is
returned by the container listing. -/
theorem c9_counterexample :
    list_containers 1 "admin" none [tmplCt] = [tmplCt] ∧
      tmplCt.template = true := by
  decide

/-- C9 amended: a listing of VMs contains exactly the non-template VMs
visible to the caller — everything for an admin whose scope is not
"mine", otherwise those the ownership test attributes to the caller —
while the container listing applies the same scoping without ever
filtering templates. -/
theorem c9_amended (uid : Nat) (role : String) (scope : Option String)
    (vms cts : List Resource) (r : Resource) :
    (r ∈ list_instances uid role scope vms ↔
      r ∈ vms ∧ r.template = false ∧
        ((role = "admin" ∧ scope ≠ some "mine") ∨ _is_owner r uid = true)) ∧
    (r ∈ list_containers uid role scope cts ↔
      r ∈ cts ∧
        ((role = "admin" ∧ scope ≠ some "mine") ∨ _is_owner r uid = true)) := by
  unfold list_instances list_containers
  constructor
  · split_ifs with h
    · simp only [List.mem_filter, Bool.not_eq_true']
      tauto
    · simp only [List.mem_filter, Bool.not_eq_true']
      tauto
  · split_ifs with h
    · tauto
    · simp only [List.mem_filter]
      tauto

/-- C8 as stated is false for VM templates: an unowned template VM has no
marker in its label set, yet a run of the bootstrapper leaves it
untouched. -/
theorem c8_counterexample :
    _claim_existing_resources 1 (fun _ => true) [tmplVm] [] =
        ([tmplVm], []) ∧
      strContains tmplVm.tags OWNER_TAG = false := by
  decide

/-- C10: when the account has no quota row, both creation gates admit
without consulting the inventory at all — for any role and any fetch
outcome — exactly as they do for an admin holding any quota row. -/
theorem c10_no_quota_row_skips (role : String) (uid : Nat) (q : Quota)
    (f g f2 g2 : Except Unit (List Resource)) (v c m d : Nat) :
    create_instance_quota role uid none f v m d = none ∧
      create_container_quota role uid none f g c m d = none ∧
      create_instance_quota role uid none f v m d =
        create_instance_quota "admin" uid (some q) f2 v m d ∧
      create_container_quota role uid none f g c m d =
        create_container_quota "admin" uid (some q) f2 g2 c m d := by
  refine ⟨rfl, rfl, ?_, ?_⟩ <;>
    simp [create_instance_quota, create_container_quota]

/-- C2 as stated is false for the VM-creation path: over an inventory
holding no VMs and one owned container whose 4 vcpus push the both-kind
sum past the 8-vcpu ceiling, the VM-creation check admits a 6-vcpu
request, while the container-creation check over the same inventory
rejects it citing vcpu — the VM path does not sum both kinds. -/
theorem c2_counterexample :
    create_instance_quota "user" 1 (some (defaultQuota 1)) (Except.ok [])
        6 512 10 = none ∧
      usedVcpus (my_instances 1 [] [ctOwned]) + 6 >
        (defaultQuota 1).max_vcpus ∧
      create_container_quota "user" 1 (some (defaultQuota 1))
          (Except.ok []) (Except.ok [ctOwned]) 6 512 10 =
        some (Dim.vcpu, vcpuMsg 4 6 8) := by
  refine ⟨?_, by decide, ?_⟩
  · rw [create_instance_quota_eqN]; decide
  · rw [create_container_quota_eqN]; decide

/-- C2 amended: for a non-admin with a quota row, the container-creation
check sums the account's owned non-template resources of both kinds and
admits exactly when every dimension fits, while the VM-creation check
does the same over the owned non-template VMs only. -/
theorem c2_amended (uid : Nat) (q : Quota) (vms cts : List Resource)
    (v c m d : Nat) :
    (create_container_quota "user" uid (some q) (Except.ok vms)
        (Except.ok cts) c m d = none ↔
      usedVcpus (my_instances uid vms cts) + c ≤ q.max_vcpus ∧
        usedRamBytes (my_instances uid vms cts) + m * 1024 ^ 2 ≤
          q.max_ram_gb * 1024 ^ 3 ∧
        usedDiskBytes (my_instances uid vms cts) + d * 1024 ^ 3 ≤
          q.max_disk_gb * 1024 ^ 3) ∧
    (create_instance_quota "user" uid (some q) (Except.ok vms) v m d = none ↔
      usedVcpus (myVms uid vms) + v ≤ q.max_vcpus ∧
        usedRamBytes (myVms uid vms) + m * 1024 ^ 2 ≤
          q.max_ram_gb * 1024 ^ 3 ∧
        usedDiskBytes (myVms uid vms) + d * 1024 ^ 3 ≤
          q.max_disk_gb * 1024 ^ 3) := by
  rw [create_container_quota_eqN, create_instance_quota_eqN]
  simp only [create_container_quotaN, create_instance_quotaN,
    if_neg (by decide : ¬ ("user" : String) = "admin")]
  unfold ct_quota_checkN vm_quota_checkN
  constructor <;> split_ifs <;> simp_all [not_lt]

/-- C4's message clause fails: when RAM is the first violated dimension,
the rejection detail is the fixed string "RAM quota exceeded", in which
no digit occurs at all, so it names neither current usage nor the
requested increment nor the limit. -/
theorem c4_counterexample :
    vm_quota_check 1 ramQuota [ramVm] 1 1024 0 =
        some (Dim.ram, "RAM quota exceeded") ∧
      ("RAM quota exceeded").toList.all (fun ch => !ch.isDigit) = true := by
  refine ⟨?_, by decide⟩
  rw [vm_quota_check_eqN]; decide

/-- C4 amended: both creation checks evaluate the dimensions in the fixed
order vcpu, RAM, disk and return exactly the first violated one, even if
later dimensions would also fail; the vCPU rejection's message names
current usage, the requested increment and the limit, while the RAM and
disk rejections carry fixed messages. -/
theorem c4_amended (uid : Nat) (q : Quota) (vms cts : List Resource)
    (v c m d : Nat) :
    (usedVcpus (myVms uid vms) + v > q.max_vcpus →
      vm_quota_check uid q vms v m d =
        some (Dim.vcpu, vcpuMsg (usedVcpus (myVms uid vms)) v q.max_vcpus)) ∧
    (¬ usedVcpus (myVms uid vms) + v > q.max_vcpus →
      (usedRamBytes (myVms uid vms) : ℚ) / (1024 ^ 2) + (m : ℚ) >
        (q.max_ram_gb : ℚ) * 1024 →
      vm_quota_check uid q vms v m d = some (Dim.ram, "RAM quota exceeded")) ∧
    (¬ usedVcpus (myVms uid vms) + v > q.max_vcpus →
      ¬ (usedRamBytes (myVms uid vms) : ℚ) / (1024 ^ 2) + (m : ℚ) >
        (q.max_ram_gb : ℚ) * 1024 →
      (usedDiskBytes (myVms uid vms) : ℚ) / (1024 ^ 3) + (d : ℚ) >
        (q.max_disk_gb : ℚ) →
      vm_quota_check uid q vms v m d = some (Dim.disk, "Disk quota exceeded")) ∧
    (usedVcpus (my_instances uid vms cts) + c > q.max_vcpus →
      ct_quota_check uid q vms cts c m d =
        some (Dim.vcpu,
          vcpuMsg (usedVcpus (my_instances uid vms cts)) c q.max_vcpus)) ∧
    (¬ usedVcpus (my_instances uid vms cts) + c > q.max_vcpus →
      (usedRamBytes (my_instances uid vms cts) : ℚ) / (1024 ^ 3) +
        (m : ℚ) / 1024 > (q.max_ram_gb : ℚ) →
      ct_quota_check uid q vms cts c m d =
        some (Dim.ram, "RAM quota exceeded")) ∧
    (¬ usedVcpus (my_instances uid vms cts) + c > q.max_vcpus →
      ¬ (usedRamBytes (my_instances uid vms cts) : ℚ) / (1024 ^ 3) +
        (m : ℚ) / 1024 > (q.max_ram_gb : ℚ) →
      (usedDiskBytes (my_instances uid vms cts) : ℚ) / (1024 ^ 3) +
        (d : ℚ) > (q.max_disk_gb : ℚ) →
      ct_quota_check uid q vms cts c m d =
        some (Dim.disk, "Disk quota exceeded")) := by
  refine ⟨fun h1 => ?_, fun h1 h2 => ?_, fun h1 h2 h3 => ?_,
    fun h1 => ?_, fun h1 h2 => ?_, fun h1 h2 h3 => ?_⟩
  · rw [vm_quota_check_eqN]
    simp only [vm_quota_checkN]
    rw [if_pos h1]
  · rw [vm_quota_check_eqN]
    simp only [vm_quota_checkN]
    rw [if_neg h1, if_pos ((ram_vm_cond _ _ _).mp h2)]
  · rw [vm_quota_check_eqN]
    simp only [vm_quota_checkN]
    rw [if_neg h1, if_neg (fun hh => h2 ((ram_vm_cond _ _ _).mpr hh)),
      if_pos ((disk_cond _ _ _).mp h3)]
  · rw [ct_quota_check_eqN]
    simp only [ct_quota_checkN]
    rw [if_pos h1]
  · rw [ct_quota_check_eqN]
    simp only [ct_quota_checkN]
    rw [if_neg h1, if_pos ((ram_ct_cond _ _ _).mp h2)]
  · rw [ct_quota_check_eqN]
    simp only [ct_quota_checkN]
    rw [if_neg h1, if_neg (fun hh => h2 ((ram_ct_cond _ _ _).mpr hh)),
      if_pos ((disk_cond _ _ _).mp h3)]

/-- Witness for the amended C4, the spec's own example: usage of 6 vcpus,
8 GB RAM, 50 GB disk under limits 8 vcpus / 16 GB / 200 GB with a 4-vcpu
request is rejected citing the vcpu dimension, numbers included. -/
theorem c4_amended_witness :
    vm_quota_check 1 (defaultQuota 1) [exVm] 4 1024 10 =
      some (Dim.vcpu, "vCPU quota exceeded: 6 + 4 > 8") := by
  have h := (c4_amended 1 (defaultQuota 1) [exVm] [] 4 0 1024 10).1 (by decide)
  rw [h]; decide

/-- C6: when no account matches the asserted external identity, the
upsert appends exactly one account and exactly one default quota row; the
account is admin/approved and the bootstrapper fires precisely when the
user table was empty, and is user/pending with no bootstrap otherwise. -/
theorem c6_first_login (db : Db) (nextId : Nat) (p : GooglePayload)
    (habs : db.users.find? (fun u => u.google_id == p.sub) = none) :
    (upsert_user db nextId p).1.users =
        db.users ++ [(upsert_user db nextId p).2.1] ∧
      (upsert_user db nextId p).1.quotas =
        db.quotas ++ [defaultQuota nextId] ∧
      (db.users = [] →
        (upsert_user db nextId p).2.1.role = "admin" ∧
        (upsert_user db nextId p).2.1.status = "approved" ∧
        (upsert_user db nextId p).2.2 = true) ∧
      (db.users ≠ [] →
        (upsert_user db nextId p).2.1.role = "user" ∧
        (upsert_user db nextId p).2.1.status = "pending" ∧
        (upsert_user db nextId p).2.2 = false) := by
  unfold upsert_user
  rw [habs]
  cases hu : db.users with
  | nil => simp
  | cons a l => simp

/-- Witness for C6: on an empty store the created account is the approved
admin and the bootstrapper fires; with two existing users the created
account is a pending ordinary user and it does not. -/
theorem c6_first_login_witness :
    ((upsert_user { users := [], quotas := [] } 1 payloadA).2.1.role =
        "admin" ∧
      (upsert_user { users := [], quotas := [] } 1 payloadA).2.1.status =
        "approved" ∧
      (upsert_user { users := [], quotas := [] } 1 payloadA).2.2 = true) ∧
    ((upsert_user twoUserDb 3 payloadA).2.1.role = "user" ∧
      (upsert_user twoUserDb 3 payloadA).2.1.status = "pending" ∧
      (upsert_user twoUserDb 3 payloadA).2.2 = false) :=
  ⟨(c6_first_login { users := [], quotas := [] } 1 payloadA (by decide)).2.2.1
      rfl,
    (c6_first_login twoUserDb 3 payloadA (by decide)).2.2.2 (by decide)⟩

/-- C7 as stated is false: the status endpoint accepts "pending" as a
target value, so an admin can move an approved account back to pending. -/
theorem c7_counterexample :
    update_user_status twoUserDb (some adminAcct) 2 "pending" =
      Except.ok
        { users := [adminAcct, { targetAcct with status := "pending" }],
          quotas := [defaultQuota 1, defaultQuota 2] } := by
  rfl

/-- C7 amended: Account.status is mutated only through the admin status
endpoint — any non-admin actor gets an error, and a repeat login leaves
every stored status unchanged — and an approved admin may set any of the
three values approved, rejected or pending (pending included) on any
existing account. -/
theorem c7_amended (db : Db) (u : Account) (tid : Nat) (s : String)
    (nextId : Nat) (p : GooglePayload)
    (hnodup : (db.users.map Account.google_id).Nodup) :
    (u.role ≠ "admin" →
      ∃ e, update_user_status db (some u) tid s = Except.error e) ∧
    ((db.users.find? (fun w => w.google_id == p.sub)).isSome →
      (upsert_user db nextId p).1.users.map Account.status =
        db.users.map Account.status) ∧
    (u.role = "admin" → u.status = "approved" →
      s = "approved" ∨ s = "rejected" ∨ s = "pending" →
      (db.users.find? (fun w => w.id == tid)).isSome →
      update_user_status db (some u) tid s =
        Except.ok { db with users := db.users.map (fun w =>
          if w.id == tid then { w with status := s } else w) }) := by
  refine ⟨?_, ?_, ?_⟩
  · intro hr
    unfold update_user_status require_admin get_current_user
    by_cases h1 : u.status = "rejected" <;>
      by_cases h2 : u.status = "pending" <;> simp [h1, h2, hr]
  · intro hfound
    obtain ⟨w, hw⟩ := Option.isSome_iff_exists.mp hfound
    unfold upsert_user
    rw [hw]
    rw [List.map_map]
    apply List.map_congr_left
    intro v hv
    by_cases hg : v.google_id == p.sub
    · have hwp := List.find?_some hw
      simp only [beq_iff_eq] at hwp
      have hwmem : w ∈ db.users := List.mem_of_find?_eq_some hw
      have hveq : w = v := by
        apply List.inj_on_of_nodup_map hnodup hwmem hv
        rw [beq_iff_eq] at hg
        show w.google_id = v.google_id
        rw [hwp, hg]
      simp only [Function.comp_apply, hg, if_pos]
      rw [← hveq]
    · simp only [Function.comp_apply, hg, if_neg]
      simp [hg]
  · intro hrole hstat hs hexists
    have h1 : ¬ u.status = "rejected" := by rw [hstat]; decide
    have h2 : ¬ u.status = "pending" := by rw [hstat]; decide
    have hreq : require_admin (some u) = AuthResult.ok u := by
      unfold require_admin get_current_user
      simp [h1, h2, hrole]
    unfold update_user_status
    rw [hreq]
    rw [if_neg (not_not_intro hs)]
    obtain ⟨w, hw⟩ := Option.isSome_iff_exists.mp hexists
    rw [hw]

/-- Witness for the amended C7: the admin sets the approved user's status
to rejected (a transition the original claim also allows). -/
theorem c7_amended_witness :
    update_user_status twoUserDb (some adminAcct) 2 "rejected" =
      Except.ok
        { users := [adminAcct, { targetAcct with status := "rejected" }],
          quotas := [defaultQuota 1, defaultQuota 2] } := by
  have h := (c7_amended twoUserDb adminAcct 2 "rejected" 0 payloadA
    (by decide)).2.2 rfl rfl (Or.inr (Or.inl rfl)) (by decide)
  rw [h]
  rfl

/-- A claimed VM's resulting tag string, as the amended claim states
it. -/
theorem claim_vm_tags (uid : Nat) (writeOk : Resource → Bool) (v : Resource) :
    (claim_vm uid writeOk v).tags = claimedTags uid writeOk true v := by
  unfold claim_vm claimedTags
  by_cases h1 : v.template <;> by_cases h2 : strContains v.tags OWNER_TAG <;>
    by_cases h3 : writeOk v <;> simp [h1, h2, h3]

/-- A claimed container's resulting tag string, as the amended claim
states it. -/
theorem claim_ct_tags (uid : Nat) (writeOk : Resource → Bool) (c : Resource) :
    (claim_ct uid writeOk c).tags = claimedTags uid writeOk false c := by
  unfold claim_ct claimedTags
  by_cases h2 : strContains c.tags OWNER_TAG <;>
    by_cases h3 : writeOk c <;> simp [h2, h3]

/-- The claim loop never touches a VM's non-tag fields. -/
theorem claim_vm_shape (uid : Nat) (writeOk : Resource → Bool) (v : Resource) :
    resourceShape (claim_vm uid writeOk v) = resourceShape v := by
  unfold claim_vm resourceShape
  split_ifs <;> rfl

/-- The claim loop never touches a container's non-tag fields. -/
theorem claim_ct_shape (uid : Nat) (writeOk : Resource → Bool) (c : Resource) :
    resourceShape (claim_ct uid writeOk c) = resourceShape c := by
  unfold claim_ct resourceShape
  split_ifs <;> rfl

/-- C8 amended: every resource's outcome depends only on that resource —
so one write failure never aborts the scan — and the marker is appended
to exactly the unowned non-template VMs and the unowned containers,
leaving every other label set and all consumption fields unchanged; on
the spec's mixed five-resource inventory exactly the three unowned
resources get tagged. -/
theorem c8_amended (uid : Nat) (writeOk : Resource → Bool)
    (vms cts : List Resource) :
    ((_claim_existing_resources uid writeOk vms cts).1.map Resource.tags =
        vms.map (claimedTags uid writeOk true)) ∧
      ((_claim_existing_resources uid writeOk vms cts).2.map Resource.tags =
        cts.map (claimedTags uid writeOk false)) ∧
      ((_claim_existing_resources uid writeOk vms cts).1.map resourceShape =
        vms.map resourceShape) ∧
      ((_claim_existing_resources uid writeOk vms cts).2.map resourceShape =
        cts.map resourceShape) ∧
      (_claim_existing_resources 9 (fun _ => true)
          [mixVmOwned, mixVmUnowned, mixVmUnowned2]
          [mixCtOwned, mixCtUnowned]).1.map Resource.tags =
        ["ucp-owner:7", "web;prod;ucp-owner:9", "ucp-owner:9"] ∧
      (_claim_existing_resources 9 (fun _ => true)
          [mixVmOwned, mixVmUnowned, mixVmUnowned2]
          [mixCtOwned, mixCtUnowned]).2.map Resource.tags =
        ["db;ucp-owner:7", "cache;ucp-owner:9"] := by
  refine ⟨?_, ?_, ?_, ?_, by decide, by decide⟩ <;>
    · unfold _claim_existing_resources
      rw [List.map_map]
      apply List.map_congr_left
      intro a _
      first
        | exact claim_vm_tags uid writeOk a
        | exact claim_ct_tags uid writeOk a
        | exact claim_vm_shape uid writeOk a
        | exact claim_ct_shape uid writeOk a

end UCP
